import Mathlib

/-!
Shallow embedding of `src/rate-limiter.ts` from bmz1/graphql-rate-limiter.

The repository stores one throttle record per tenant in Redis and exposes two
operations on it, each implemented as a single atomic Lua script:

* `checkRateLimit` (LUA_CHECK_SCRIPT): reads the record, restores elapsed-time
  capacity, and decides allow/deny.  The script issues only `EXISTS` and
  `HMGET`; it performs no write on any path.
* `updateThrottleStatus` (LUA_UPDATE_SCRIPT): overwrites the record with a
  reported throttle status, clamped to the plan (tier) limits via `HMSET`.

Numbers (timestamps in milliseconds, budgets, restore rates in units/second)
are modelled as rationals, since the restoration arithmetic
(`elapsed * rate / 1000`) is exact rational arithmetic on the values the
scripts manipulate.  `Math.ceil` on the JavaScript side becomes `Int.ceil`.
The Redis keyspace is modelled as a function from keys to optional records.
-/

namespace GraphqlRateLimiter

/-- Subscription plans, from `types.ts` (`enum Plan`). -/
inductive Plan where
  | STANDARD
  | ADVANCED
  | PLUS
  | ENTERPRISE
deriving DecidableEq, Repr

/-- Plan-level limits, from `types.ts` (`interface RateLimitConfig`). -/
structure RateLimitConfig where
  maximumAvailable : ℚ
  restoreRate : ℚ
deriving DecidableEq, Repr

/-- The static plan table `PLAN_LIMITS` from `rate-limiter.ts` lines 4-9. -/
def PLAN_LIMITS : Plan → RateLimitConfig
  | .STANDARD => { maximumAvailable := 1000, restoreRate := 100 }
  | .ADVANCED => { maximumAvailable := 2000, restoreRate := 200 }
  | .PLUS => { maximumAvailable := 5000, restoreRate := 1000 }
  | .ENTERPRISE => { maximumAvailable := 10000, restoreRate := 2000 }

/-- A reported throttle status, from `types.ts` (`interface ThrottleStatus`). -/
structure ThrottleStatus where
  maximumAvailable : ℚ
  currentlyAvailable : ℚ
  restoreRate : ℚ
deriving DecidableEq, Repr

/-- The per-tenant Redis hash written by LUA_UPDATE_SCRIPT and read by
LUA_CHECK_SCRIPT: fields `maximumAvailable`, `currentlyAvailable`,
`restoreRate`, `lastUpdated`. -/
structure ThrottleRecord where
  maximumAvailable : ℚ
  currentlyAvailable : ℚ
  restoreRate : ℚ
  lastUpdated : ℚ
deriving DecidableEq, Repr

/-- The result returned to the caller, from `types.ts`
(`interface RateLimitResult`).  `retryAfter` is the optional field
(`retryAfter?: number`); `retryAfter` and `restoreTimeMs` have passed through
`Math.ceil`, hence are integers. -/
structure RateLimitResult where
  allowed : Bool
  remainingPoints : ℚ
  maxCapacity : ℚ
  retryAfter : Option ℤ
  restoreTimeMs : ℤ
deriving DecidableEq, Repr

/-- The Redis keyspace restricted to what the two scripts touch: each key
either holds a complete throttle hash or does not exist. -/
def Store : Type := String → Option ThrottleRecord

/-- The store with no record for any tenant (state after `flushdb`). -/
def emptyStore : Store := fun _ => none

/-- Key construction from `checkRateLimit` / `updateThrottleStatus`:
`shopify:rateLimit:<storeId>`. -/
def rateLimitKey (storeId : String) : String :=
  "shopify:rateLimit:" ++ storeId

/-- The five-number tuple returned by LUA_CHECK_SCRIPT:
`{allowed, remaining, max, retryAfter, restoreTime}` (line 19 comment of the
script). -/
structure LuaCheckReply where
  allowedFlag : ℚ
  remaining : ℚ
  maxCap : ℚ
  retryRaw : ℚ
  restoreRaw : ℚ
deriving DecidableEq, Repr

/-- Restoration arithmetic of LUA_CHECK_SCRIPT lines 36-38:
`elapsed = math.max(currentTimestamp - lastUpdated, 0)`,
`restored = (elapsed * effectiveRate) / 1000`,
`newAvailable = math.min(storedCurrent + restored, effectiveMax)`. -/
def availableAt (storedCurrent lastUpdated effectiveMax effectiveRate
    currentTimestamp : ℚ) : ℚ :=
  let elapsed := max (currentTimestamp - lastUpdated) 0
  let restored := (elapsed * effectiveRate) / 1000
  min (storedCurrent + restored) effectiveMax

/-- LUA_CHECK_SCRIPT (`rate-limiter.ts` lines 11-48).  The script only reads
(`EXISTS`, `HMGET`): every path returns the store unchanged, mirroring the
absence of any write command in the script. -/
def luaCheck (store : Store) (key : String)
    (currentTimestamp planMax planRate : ℚ) : LuaCheckReply × Store :=
  match store key with
  | none =>
      -- `if exists == 0 then return {1, planMax, planMax, 0, 0}`
      ({ allowedFlag := 1, remaining := planMax, maxCap := planMax,
         retryRaw := 0, restoreRaw := 0 }, store)
  | some r =>
      let effectiveMax := min r.maximumAvailable planMax
      let effectiveRate := min r.restoreRate planRate
      let newAvailable :=
        availableAt r.currentlyAvailable r.lastUpdated effectiveMax
          effectiveRate currentTimestamp
      let deficit := effectiveMax - newAvailable
      let restoreTimeMs := (deficit / effectiveRate) * 1000
      if newAvailable > 0 then
        ({ allowedFlag := 1, remaining := newAvailable, maxCap := effectiveMax,
           retryRaw := 0, restoreRaw := restoreTimeMs }, store)
      else
        ({ allowedFlag := 0, remaining := 0, maxCap := effectiveMax,
           retryRaw := restoreTimeMs, restoreRaw := restoreTimeMs }, store)

/-- `RateLimiter.checkRateLimit` (`rate-limiter.ts` lines 78-98): runs
LUA_CHECK_SCRIPT with the plan limits as arguments and shapes the reply:
`allowed = result[0] === 1`, `retryAfter = result[3] > 0 ? Math.ceil(result[3])
: undefined`, `restoreTimeMs = Math.ceil(result[4])`. -/
def checkRateLimit (store : Store) (storeId : String) (plan : Plan)
    (now : ℚ) : RateLimitResult × Store :=
  let key := rateLimitKey storeId
  let planConfig := PLAN_LIMITS plan
  let res := luaCheck store key now planConfig.maximumAvailable
    planConfig.restoreRate
  ({ allowed := decide (res.1.allowedFlag = 1),
     remainingPoints := res.1.remaining,
     maxCapacity := res.1.maxCap,
     retryAfter := if res.1.retryRaw > 0 then some ⌈res.1.retryRaw⌉ else none,
     restoreTimeMs := ⌈res.1.restoreRaw⌉ }, res.2)

/-- LUA_UPDATE_SCRIPT (`rate-limiter.ts` lines 50-69): one `HMSET` writing
`maximumAvailable = min(throttleMax, planMax)`,
`currentlyAvailable = min(throttleCurrent, effectiveMax)`,
`restoreRate = min(throttleRate, planRate)`, `lastUpdated = currentTimestamp`.
No validation of the incoming numbers is performed. -/
def luaUpdate (store : Store) (key : String)
    (currentTimestamp throttleMax throttleRate planMax planRate
     throttleCurrent : ℚ) : Store :=
  let effectiveMax := min throttleMax planMax
  let effectiveRate := min throttleRate planRate
  fun k =>
    if k = key then
      some { maximumAvailable := effectiveMax,
             currentlyAvailable := min throttleCurrent effectiveMax,
             restoreRate := effectiveRate,
             lastUpdated := currentTimestamp }
    else store k

/-- `RateLimiter.updateThrottleStatus` (`rate-limiter.ts` lines 100-120):
runs LUA_UPDATE_SCRIPT with the reported status and the plan limits. -/
def updateThrottleStatus (store : Store) (storeId : String)
    (throttleStatus : ThrottleStatus) (plan : Plan) (now : ℚ) : Store :=
  let key := rateLimitKey storeId
  let planConfig := PLAN_LIMITS plan
  luaUpdate store key now throttleStatus.maximumAvailable
    throttleStatus.restoreRate planConfig.maximumAvailable
    planConfig.restoreRate throttleStatus.currentlyAvailable

/-! ## Reachable states

`Reachable` closes the empty store under the two exposed operations with
arbitrary arguments (in particular arbitrary reported statuses), matching the
spec's notion of a state produced by any sequence of Synchronization and
Reservation Check calls.  `ReachableWellReported` restricts Synchronization to
statuses with non-negative ceiling and non-negative available budget. -/

/-- A reported status with non-negative `currentlyAvailable` and
`maximumAvailable`. -/
def ThrottleStatus.wellReported (st : ThrottleStatus) : Prop :=
  0 ≤ st.currentlyAvailable ∧ 0 ≤ st.maximumAvailable

/-- Stores reachable from the empty store by the two operations with
arbitrary arguments. -/
inductive Reachable : Store → Prop where
  | init : Reachable emptyStore
  | step_update (s : Store) (storeId : String) (st : ThrottleStatus)
      (p : Plan) (now : ℚ) (hs : Reachable s) :
      Reachable (updateThrottleStatus s storeId st p now)
  | step_check (s : Store) (storeId : String) (p : Plan) (now : ℚ)
      (hs : Reachable s) :
      Reachable (checkRateLimit s storeId p now).2

/-- Stores reachable when every Synchronization reports a status with
non-negative `currentlyAvailable` and non-negative `maximumAvailable`. -/
inductive ReachableWellReported : Store → Prop where
  | init : ReachableWellReported emptyStore
  | step_update (s : Store) (storeId : String) (st : ThrottleStatus)
      (p : Plan) (now : ℚ) (hst : st.wellReported)
      (hs : ReachableWellReported s) :
      ReachableWellReported (updateThrottleStatus s storeId st p now)
  | step_check (s : Store) (storeId : String) (p : Plan) (now : ℚ)
      (hs : ReachableWellReported s) :
      ReachableWellReported (checkRateLimit s storeId p now).2

/-! ## General lemmas about the two operations -/

/-- Every plan has a positive ceiling and a positive restore rate. -/
theorem PLAN_LIMITS_pos (p : Plan) :
    0 < (PLAN_LIMITS p).maximumAvailable ∧ 0 < (PLAN_LIMITS p).restoreRate := by
  cases p <;> norm_num [PLAN_LIMITS]

/-- LUA_CHECK_SCRIPT leaves the store untouched on every path. -/
theorem luaCheck_snd (store : Store) (key : String)
    (currentTimestamp planMax planRate : ℚ) :
    (luaCheck store key currentTimestamp planMax planRate).2 = store := by
  unfold luaCheck
  cases store key
  · rfl
  · dsimp only
    split <;> rfl

/-- `checkRateLimit` leaves the store untouched. -/
theorem checkRateLimit_snd (s : Store) (storeId : String) (p : Plan)
    (now : ℚ) : (checkRateLimit s storeId p now).2 = s := by
  unfold checkRateLimit
  exact luaCheck_snd ..

/-- Characterization of the result of `checkRateLimit` when the tenant has a
record: both branches of the script, shaped as in `checkRateLimit`. -/
theorem checkRateLimit_some (s : Store) (storeId : String) (p : Plan)
    (now : ℚ) (r : ThrottleRecord) (h : s (rateLimitKey storeId) = some r) :
    (checkRateLimit s storeId p now).1 =
      (let effectiveMax := min r.maximumAvailable (PLAN_LIMITS p).maximumAvailable
       let effectiveRate := min r.restoreRate (PLAN_LIMITS p).restoreRate
       let newAvailable := availableAt r.currentlyAvailable r.lastUpdated
         effectiveMax effectiveRate now
       let restoreTimeMs := (effectiveMax - newAvailable) / effectiveRate * 1000
       if 0 < newAvailable then
         { allowed := true, remainingPoints := newAvailable,
           maxCapacity := effectiveMax, retryAfter := none,
           restoreTimeMs := ⌈restoreTimeMs⌉ }
       else
         { allowed := false, remainingPoints := 0, maxCapacity := effectiveMax,
           retryAfter := if 0 < restoreTimeMs then some ⌈restoreTimeMs⌉ else none,
           restoreTimeMs := ⌈restoreTimeMs⌉ }) := by
  unfold checkRateLimit luaCheck
  dsimp only
  rw [h]
  dsimp only
  split <;> rename_i hcond <;> simp [hcond]

/-- Characterization of the result of `checkRateLimit` when the tenant has no
record. -/
theorem checkRateLimit_none (s : Store) (storeId : String) (p : Plan)
    (now : ℚ) (h : s (rateLimitKey storeId) = none) :
    (checkRateLimit s storeId p now).1 =
      { allowed := true, remainingPoints := (PLAN_LIMITS p).maximumAvailable,
        maxCapacity := (PLAN_LIMITS p).maximumAvailable,
        retryAfter := none, restoreTimeMs := 0 } := by
  unfold checkRateLimit luaCheck
  dsimp only
  rw [h]
  simp

/-- The record written by `updateThrottleStatus` at the tenant's key. -/
theorem updateThrottleStatus_written (s : Store) (storeId : String)
    (st : ThrottleStatus) (p : Plan) (now : ℚ) :
    (updateThrottleStatus s storeId st p now) (rateLimitKey storeId) =
      some { maximumAvailable := min st.maximumAvailable (PLAN_LIMITS p).maximumAvailable,
             currentlyAvailable := min st.currentlyAvailable
               (min st.maximumAvailable (PLAN_LIMITS p).maximumAvailable),
             restoreRate := min st.restoreRate (PLAN_LIMITS p).restoreRate,
             lastUpdated := now } := by
  unfold updateThrottleStatus luaUpdate
  simp

/-- Keys other than the tenant's are untouched by `updateThrottleStatus`. -/
theorem updateThrottleStatus_other (s : Store) (storeId : String)
    (st : ThrottleStatus) (p : Plan) (now : ℚ) (k : String)
    (hk : k ≠ rateLimitKey storeId) :
    (updateThrottleStatus s storeId st p now) k = s k := by
  unfold updateThrottleStatus luaUpdate
  simp [hk]

/-! ## Concrete stores used by witnesses and counterexamples -/

/-- The record of the spec's Scenarios A and B — `{max:1000, rate:100/s,
current:0}` last updated at `t0 = 0` — held at every key, so that concrete
lookups reduce without evaluating key strings. -/
def depletedStore : Store :=
  fun _ => some { maximumAvailable := 1000, currentlyAvailable := 0,
                  restoreRate := 100, lastUpdated := 0 }

/-- A reported status with restore rate 0, which the spec says Synchronization
must reject with `InvalidRecord`. -/
def zeroRateStatus : ThrottleStatus :=
  { maximumAvailable := 1000, currentlyAvailable := 500, restoreRate := 0 }

/-- A reported status with a negative `currentlyAvailable`. -/
def negativeCurrentStatus : ThrottleStatus :=
  { maximumAvailable := 1000, currentlyAvailable := -5, restoreRate := 100 }

/-- The store obtained by synchronizing `negativeCurrentStatus` into the empty
store for tenant `s1` on the STANDARD plan at time 0. -/
def negativeCurrentStore : Store :=
  updateThrottleStatus emptyStore "s1" negativeCurrentStatus .STANDARD 0

/-! ## Claim theorems -/

/-- C10: for every store state, tenant key, plan and timestamp — whether or
not a record exists and whether the check is allowed or denied —
`checkRateLimit` never writes to the backing store: the store is identical
before and after the call (LUA_CHECK_SCRIPT issues only `EXISTS` and `HMGET`).
-/
theorem C10_check_never_writes (s : Store) (storeId : String) (p : Plan)
    (now : ℚ) : (checkRateLimit s storeId p now).2 = s :=
  checkRateLimit_snd s storeId p now

/-- C5: a Reservation Check for a tenant with no existing record returns
`allowed = true`, `remainingPoints = maxCapacity =` the plan's configured
ceiling (the implementation-defined default), `retryAfter = undefined`,
`restoreTimeMs = 0`, and performs no write. -/
theorem C5_no_record_default (s : Store) (storeId : String) (p : Plan)
    (now : ℚ) (h : s (rateLimitKey storeId) = none) :
    (checkRateLimit s storeId p now).1 =
      { allowed := true, remainingPoints := (PLAN_LIMITS p).maximumAvailable,
        maxCapacity := (PLAN_LIMITS p).maximumAvailable,
        retryAfter := none, restoreTimeMs := 0 } ∧
    (checkRateLimit s storeId p now).2 = s :=
  ⟨checkRateLimit_none s storeId p now h, checkRateLimit_snd s storeId p now⟩

/-- Witness for C5 at the empty store, tenant `s1`, STANDARD plan, time 0. -/
theorem C5_no_record_default_witness :
    (checkRateLimit emptyStore "s1" .STANDARD 0).1 =
      { allowed := true, remainingPoints := 1000, maxCapacity := 1000,
        retryAfter := none, restoreTimeMs := 0 } ∧
    (checkRateLimit emptyStore "s1" .STANDARD 0).2 = emptyStore :=
  C5_no_record_default emptyStore "s1" .STANDARD 0 rfl

/-- C1: evaluation of the code at the claim's own scenario.  The claim (spec
Scenario B) says `check(cost=1, t0+5000)` on the record `{max:1000, rate:100/s,
current:0}` persists `currentlyAvailable = available - cost` and returns
`remainingPoints = available - cost = 499`.  The implementation's check takes
no cost argument, performs no write on any path, and returns
`remainingPoints = available = 500`. -/
theorem C1_code_eval :
    (checkRateLimit depletedStore "s1" .STANDARD 5000).1.allowed = true ∧
    (checkRateLimit depletedStore "s1" .STANDARD 5000).1.remainingPoints = 500 ∧
    (checkRateLimit depletedStore "s1" .STANDARD 5000).1.remainingPoints ≠ 499 ∧
    (checkRateLimit depletedStore "s1" .STANDARD 5000).1.restoreTimeMs = 5000 ∧
    (checkRateLimit depletedStore "s1" .STANDARD 5000).2 = depletedStore := by
  refine ⟨?_, ?_, ?_, ?_, checkRateLimit_snd ..⟩ <;>
    norm_num [checkRateLimit, luaCheck, availableAt, depletedStore,
      PLAN_LIMITS, min_def, max_def]

/-- C3: evaluation of the code at the claim's failing input.  The claim says
Synchronization with `reportedStatus.restoreRate <= 0` fails with
`InvalidRecord` before any write; the implementation has no validation and
persists the record, so a record with effective restore rate 0 is stored (and
a later check divides its deficit by that zero rate). -/
theorem C3_code_eval :
    emptyStore (rateLimitKey "s1") = none ∧
    (updateThrottleStatus emptyStore "s1" zeroRateStatus .STANDARD 0)
        (rateLimitKey "s1") =
      some { maximumAvailable := 1000, currentlyAvailable := 500,
             restoreRate := 0, lastUpdated := 0 } := by
  refine ⟨rfl, ?_⟩
  norm_num [updateThrottleStatus, luaUpdate, zeroRateStatus, PLAN_LIMITS,
    min_def]

/-- When the stored ceiling and rate are positive and the restored budget is
not positive (the denied branch), the computed restore time is positive. -/
theorem restoreTime_pos (r : ThrottleRecord) (p : Plan) (now : ℚ)
    (hmax : 0 < r.maximumAvailable) (hrate : 0 < r.restoreRate)
    (hA : ¬ 0 < availableAt r.currentlyAvailable r.lastUpdated
      (min r.maximumAvailable (PLAN_LIMITS p).maximumAvailable)
      (min r.restoreRate (PLAN_LIMITS p).restoreRate) now) :
    0 < (min r.maximumAvailable (PLAN_LIMITS p).maximumAvailable -
        availableAt r.currentlyAvailable r.lastUpdated
          (min r.maximumAvailable (PLAN_LIMITS p).maximumAvailable)
          (min r.restoreRate (PLAN_LIMITS p).restoreRate) now) /
      min r.restoreRate (PLAN_LIMITS p).restoreRate * 1000 := by
  have hM : 0 < min r.maximumAvailable (PLAN_LIMITS p).maximumAvailable :=
    lt_min hmax (PLAN_LIMITS_pos p).1
  have hR : 0 < min r.restoreRate (PLAN_LIMITS p).restoreRate :=
    lt_min hrate (PLAN_LIMITS_pos p).2
  have hA' := not_lt.mp hA
  have hpos : 0 < min r.maximumAvailable (PLAN_LIMITS p).maximumAvailable -
      availableAt r.currentlyAvailable r.lastUpdated
        (min r.maximumAvailable (PLAN_LIMITS p).maximumAvailable)
        (min r.restoreRate (PLAN_LIMITS p).restoreRate) now := by
    linarith
  exact mul_pos (div_pos hpos hR) (by norm_num)

/-- C2 counterexample: the invariant `0 ≤ currentlyAvailable` fails on a
reachable store.  Synchronizing the reported status `{max:1000, current:-5,
rate:100}` into the empty store persists `currentlyAvailable = -5`, because
LUA_UPDATE_SCRIPT clamps the stored budget only from above
(`min(throttleCurrent, effectiveMax)`), never from below. -/
theorem C2_counterexample :
    Reachable negativeCurrentStore ∧
    negativeCurrentStore (rateLimitKey "s1") =
      some { maximumAvailable := 1000, currentlyAvailable := -5,
             restoreRate := 100, lastUpdated := 0 } ∧
    ((-5 : ℚ) < 0) := by
  refine ⟨Reachable.step_update _ _ _ _ _ Reachable.init, ?_, by norm_num⟩
  norm_num [negativeCurrentStore, updateThrottleStatus, luaUpdate,
    negativeCurrentStatus, PLAN_LIMITS, min_def]

/-- C2 (amended): the invariant `0 ≤ currentlyAvailable ≤ maximumAvailable`
holds for every record of every reachable store, provided every
Synchronization in the sequence reports a status with non-negative
`currentlyAvailable` and non-negative `maximumAvailable`. -/
theorem C2_invariant_wellReported (s : Store) (hs : ReachableWellReported s) :
    ∀ k r, s k = some r →
      0 ≤ r.currentlyAvailable ∧ r.currentlyAvailable ≤ r.maximumAvailable := by
  induction hs with
  | init =>
      intro k r h
      simp [emptyStore] at h
  | step_update s' storeId st p now hst hs ih =>
      intro k r h
      by_cases hk : k = rateLimitKey storeId
      · subst hk
        rw [updateThrottleStatus_written] at h
        have hr := Option.some.inj h
        subst hr
        refine ⟨le_min hst.1 (le_min hst.2 (PLAN_LIMITS_pos p).1.le), ?_⟩
        exact min_le_right _ _
      · rw [updateThrottleStatus_other s' storeId st p now k hk] at h
        exact ih k r h
  | step_check s' storeId p now hs ih =>
      intro k r h
      rw [checkRateLimit_snd] at h
      exact ih k r h

/-- A well-reported status used in the C2 witness. -/
def validSyncStatus : ThrottleStatus :=
  { maximumAvailable := 500, currentlyAvailable := 250, restoreRate := 50 }

/-- The store reached by synchronizing `validSyncStatus` into the empty store.
-/
def validSyncStore : Store :=
  updateThrottleStatus emptyStore "s1" validSyncStatus .STANDARD 0

/-- Witness for the amended C2 at a concrete reachable store. -/
theorem C2_invariant_wellReported_witness :
    (0 : ℚ) ≤ 250 ∧ (250 : ℚ) ≤ 500 :=
  C2_invariant_wellReported validSyncStore
    (ReachableWellReported.step_update _ _ _ _ _
      (by constructor <;> norm_num [validSyncStatus])
      ReachableWellReported.init)
    (rateLimitKey "s1")
    { maximumAvailable := 500, currentlyAvailable := 250,
      restoreRate := 50, lastUpdated := 0 }
    (by norm_num [validSyncStore, updateThrottleStatus, luaUpdate,
      validSyncStatus, PLAN_LIMITS, min_def])

/-- C4: a denied Reservation Check on an existing record (with the record's
positive ceiling and rate, per the data model) performs no mutation of the
store, returns `allowed=false`, `remainingPoints=0`,
`maxCapacity=effectiveMax`, `retryAfter = restoreTimeMs`, and a repeated call
with unchanged `now` returns the identical result. -/
theorem C4_denied_no_mutation (s : Store) (storeId : String) (p : Plan)
    (now : ℚ) (r : ThrottleRecord) (h : s (rateLimitKey storeId) = some r)
    (hmax : 0 < r.maximumAvailable) (hrate : 0 < r.restoreRate)
    (hdenied : (checkRateLimit s storeId p now).1.allowed = false) :
    (checkRateLimit s storeId p now).2 = s ∧
    (checkRateLimit s storeId p now).1.remainingPoints = 0 ∧
    (checkRateLimit s storeId p now).1.maxCapacity =
      min r.maximumAvailable (PLAN_LIMITS p).maximumAvailable ∧
    (checkRateLimit s storeId p now).1.retryAfter =
      some (checkRateLimit s storeId p now).1.restoreTimeMs ∧
    checkRateLimit (checkRateLimit s storeId p now).2 storeId p now =
      checkRateLimit s storeId p now := by
  have hres := checkRateLimit_some s storeId p now r h
  by_cases hA : 0 < availableAt r.currentlyAvailable r.lastUpdated
      (min r.maximumAvailable (PLAN_LIMITS p).maximumAvailable)
      (min r.restoreRate (PLAN_LIMITS p).restoreRate) now
  · rw [hres] at hdenied
    simp [hA] at hdenied
  · have hraw := restoreTime_pos r p now hmax hrate hA
    refine ⟨checkRateLimit_snd .., ?_, ?_, ?_, by rw [checkRateLimit_snd]⟩ <;>
      rw [hres] <;> simp [hA, hraw]

/-- The record of the repository test `handles exhausted points correctly`:
max 100, rate 10, current 0, held at every key. -/
def exhaustedStore : Store :=
  fun _ => some { maximumAvailable := 100, currentlyAvailable := 0,
                  restoreRate := 10, lastUpdated := 0 }

/-- Witness for C4 at the exhausted record, STANDARD plan, time 0. -/
theorem C4_denied_no_mutation_witness :
    (checkRateLimit exhaustedStore "s1" .STANDARD 0).2 = exhaustedStore ∧
    (checkRateLimit exhaustedStore "s1" .STANDARD 0).1.remainingPoints = 0 ∧
    (checkRateLimit exhaustedStore "s1" .STANDARD 0).1.maxCapacity =
      min 100 1000 ∧
    (checkRateLimit exhaustedStore "s1" .STANDARD 0).1.retryAfter =
      some (checkRateLimit exhaustedStore "s1" .STANDARD 0).1.restoreTimeMs ∧
    checkRateLimit (checkRateLimit exhaustedStore "s1" .STANDARD 0).2 "s1"
        .STANDARD 0 =
      checkRateLimit exhaustedStore "s1" .STANDARD 0 :=
  C4_denied_no_mutation exhaustedStore "s1" .STANDARD 0
    { maximumAvailable := 100, currentlyAvailable := 0,
      restoreRate := 10, lastUpdated := 0 }
    rfl (by norm_num) (by norm_num)
    (by norm_num [checkRateLimit, luaCheck, availableAt, exhaustedStore,
      PLAN_LIMITS, min_def, max_def])

/-- C6: for an existing record, the returned `restoreTimeMs` equals
`ceil((effectiveMax - available) / effectiveRate * 1000)` where
`available = min(currentlyAvailable + max(now - lastUpdated, 0) *
effectiveRate / 1000, effectiveMax)`, exactly as the claim's chain
`elapsed` / `restored` / `available` / `restoreTimeMs` prescribes. -/
theorem C6_restore_formula (s : Store) (storeId : String) (p : Plan)
    (now : ℚ) (r : ThrottleRecord) (h : s (rateLimitKey storeId) = some r) :
    (checkRateLimit s storeId p now).1.restoreTimeMs =
      ⌈(min r.maximumAvailable (PLAN_LIMITS p).maximumAvailable -
          min (r.currentlyAvailable +
              max (now - r.lastUpdated) 0 *
                min r.restoreRate (PLAN_LIMITS p).restoreRate / 1000)
            (min r.maximumAvailable (PLAN_LIMITS p).maximumAvailable)) /
        min r.restoreRate (PLAN_LIMITS p).restoreRate * 1000⌉ := by
  have hres := checkRateLimit_some s storeId p now r h
  rw [hres]
  unfold availableAt
  dsimp only
  split <;> rfl

/-- Witness for C6: spec Scenario A — the record `{max:1000, rate:100/s,
current:0}` checked at `t0` is denied with `retryAfter = 10000` and
`restoreTimeMs = 10000`. -/
theorem C6_restore_formula_witness :
    (checkRateLimit depletedStore "s1" .STANDARD 0).1.restoreTimeMs = 10000 ∧
    (checkRateLimit depletedStore "s1" .STANDARD 0).1.allowed = false ∧
    (checkRateLimit depletedStore "s1" .STANDARD 0).1.retryAfter =
      some 10000 := by
  refine ⟨?_, ?_, ?_⟩
  · rw [C6_restore_formula depletedStore "s1" .STANDARD 0
      { maximumAvailable := 1000, currentlyAvailable := 0,
        restoreRate := 100, lastUpdated := 0 } rfl]
    norm_num [PLAN_LIMITS, min_def, max_def]
  · norm_num [checkRateLimit, luaCheck, availableAt, depletedStore,
      PLAN_LIMITS, min_def, max_def]
  · norm_num [checkRateLimit, luaCheck, availableAt, depletedStore,
      PLAN_LIMITS, min_def, max_def]

/-- C7: both operations clamp to the tier: a check on an existing record uses
and returns `effectiveMax = min(storedMax, tierMax)`, and a synchronization
persists `maximumAvailable = min(reportedMax, tierMax)` and
`restoreRate = min(reportedRate, tierRate)`; hence the effective ceiling and
rate never exceed the configured tier's values. -/
theorem C7_tier_dominance (s : Store) (storeId : String) (p : Plan)
    (now : ℚ) (r : ThrottleRecord) (st : ThrottleStatus)
    (h : s (rateLimitKey storeId) = some r) :
    ((checkRateLimit s storeId p now).1.maxCapacity =
        min r.maximumAvailable (PLAN_LIMITS p).maximumAvailable ∧
      (checkRateLimit s storeId p now).1.maxCapacity ≤
        (PLAN_LIMITS p).maximumAvailable) ∧
    ((updateThrottleStatus s storeId st p now) (rateLimitKey storeId) =
        some { maximumAvailable :=
                 min st.maximumAvailable (PLAN_LIMITS p).maximumAvailable,
               currentlyAvailable := min st.currentlyAvailable
                 (min st.maximumAvailable (PLAN_LIMITS p).maximumAvailable),
               restoreRate := min st.restoreRate (PLAN_LIMITS p).restoreRate,
               lastUpdated := now } ∧
      min st.maximumAvailable (PLAN_LIMITS p).maximumAvailable ≤
        (PLAN_LIMITS p).maximumAvailable ∧
      min st.restoreRate (PLAN_LIMITS p).restoreRate ≤
        (PLAN_LIMITS p).restoreRate) := by
  have hcap : (checkRateLimit s storeId p now).1.maxCapacity =
      min r.maximumAvailable (PLAN_LIMITS p).maximumAvailable := by
    have hres := checkRateLimit_some s storeId p now r h
    rw [hres]
    dsimp only
    split <;> rfl
  refine ⟨⟨hcap, ?_⟩, updateThrottleStatus_written .., min_le_right _ _,
    min_le_right _ _⟩
  rw [hcap]
  exact min_le_right _ _

/-- Witness for C7: a stored record and a reported status both above the
STANDARD tier are clamped to the tier's 1000 / 100. -/
theorem C7_tier_dominance_witness :
    (((checkRateLimit
          (fun _ => some { maximumAvailable := 4000, currentlyAvailable := 4000,
                           restoreRate := 400, lastUpdated := 0 })
          "s1" .STANDARD 0).1.maxCapacity = min 4000 1000 ∧
      (checkRateLimit
          (fun _ => some { maximumAvailable := 4000, currentlyAvailable := 4000,
                           restoreRate := 400, lastUpdated := 0 })
          "s1" .STANDARD 0).1.maxCapacity ≤ 1000) ∧
    ((updateThrottleStatus
          (fun _ => some { maximumAvailable := 4000, currentlyAvailable := 4000,
                           restoreRate := 400, lastUpdated := 0 })
          "s1"
          { maximumAvailable := 4000, currentlyAvailable := 4000,
            restoreRate := 400 }
          .STANDARD 0) (rateLimitKey "s1") =
        some { maximumAvailable := min 4000 1000,
               currentlyAvailable := min 4000 (min 4000 1000),
               restoreRate := min 400 100,
               lastUpdated := 0 } ∧
      min (4000 : ℚ) 1000 ≤ 1000 ∧
      min (400 : ℚ) 100 ≤ 100)) :=
  C7_tier_dominance
    (fun _ => some { maximumAvailable := 4000, currentlyAvailable := 4000,
                     restoreRate := 400, lastUpdated := 0 })
    "s1" .STANDARD 0
    { maximumAvailable := 4000, currentlyAvailable := 4000,
      restoreRate := 400, lastUpdated := 0 }
    { maximumAvailable := 4000, currentlyAvailable := 4000,
      restoreRate := 400 }
    rfl

/-- C8: for a fixed record and positive effective rate, the restored budget
`availableAt` is non-decreasing in `now`, the elapsed time
`max(now - lastUpdated, 0)` is never negative, and `availableAt` never
exceeds the effective ceiling. -/
theorem C8_monotone_clamped (storedCurrent lastUpdated effectiveMax
    effectiveRate n1 n2 : ℚ) (hrate : 0 < effectiveRate) (h12 : n1 ≤ n2) :
    availableAt storedCurrent lastUpdated effectiveMax effectiveRate n1 ≤
      availableAt storedCurrent lastUpdated effectiveMax effectiveRate n2 ∧
    (0 : ℚ) ≤ max (n1 - lastUpdated) 0 ∧
    (∀ now, availableAt storedCurrent lastUpdated effectiveMax effectiveRate
      now ≤ effectiveMax) := by
  refine ⟨?_, le_max_right _ _, fun now => min_le_right _ _⟩
  unfold availableAt
  dsimp only
  have hel : max (n1 - lastUpdated) 0 ≤ max (n2 - lastUpdated) 0 :=
    max_le_max (by linarith) le_rfl
  have hmul : max (n1 - lastUpdated) 0 * effectiveRate / 1000 ≤
      max (n2 - lastUpdated) 0 * effectiveRate / 1000 := by
    exact div_le_div_of_nonneg_right
      (mul_le_mul_of_nonneg_right hel hrate.le) (by norm_num)
  exact min_le_min (by linarith) le_rfl

/-- Witness for C8 at the Scenario A record between `t0+1000` and `t0+2000`.
-/
theorem C8_monotone_clamped_witness :
    (0 : ℚ) < 100 ∧ (1000 : ℚ) ≤ 2000 ∧
    (availableAt 0 0 1000 100 1000 ≤ availableAt 0 0 1000 100 2000 ∧
      (0 : ℚ) ≤ max (1000 - 0) 0 ∧
      (∀ now, availableAt 0 0 1000 100 now ≤ 1000)) :=
  ⟨by norm_num, by norm_num,
    C8_monotone_clamped 0 0 1000 100 1000 2000 (by norm_num) (by norm_num)⟩

/-- C9: `retryAfter` is present exactly when the request is denied, for every
tenant key, plan and timestamp, whenever the tenant's record (if any) has a
positive ceiling and a positive restore rate as the data model requires. -/
theorem C9_retryAfter_iff_denied (s : Store) (storeId : String) (p : Plan)
    (now : ℚ)
    (hwf : ∀ r, s (rateLimitKey storeId) = some r →
      0 < r.maximumAvailable ∧ 0 < r.restoreRate) :
    ((checkRateLimit s storeId p now).1.retryAfter ≠ none ↔
      (checkRateLimit s storeId p now).1.allowed = false) := by
  cases hrec : s (rateLimitKey storeId) with
  | none =>
      rw [checkRateLimit_none s storeId p now hrec]
      simp
  | some r =>
      obtain ⟨hmax, hrate⟩ := hwf r hrec
      have hres := checkRateLimit_some s storeId p now r hrec
      rw [hres]
      dsimp only
      split
      · simp
      · rename_i hA
        have hraw := restoreTime_pos r p now hmax hrate hA
        simp [hraw]

/-- Witness for C9 at the Scenario A record (denied, `retryAfter` present). -/
theorem C9_retryAfter_iff_denied_witness :
    ((checkRateLimit depletedStore "s1" .STANDARD 0).1.retryAfter ≠ none ↔
      (checkRateLimit depletedStore "s1" .STANDARD 0).1.allowed = false) :=
  C9_retryAfter_iff_denied depletedStore "s1" .STANDARD 0
    (by
      intro r hr
      injection hr with hr2
      subst hr2
      norm_num)

end GraphqlRateLimiter
